import Mathlib

/-!
Verification of the authentication flow of the impulse web application.

The development shallowly embeds the hook src/src/hooks/useAuth.tsx: the
session state kept by the hook together with the two browser-local storage
keys becomes an explicit record `AuthState`; the asynchronous backend calls
become oracle parameters describing the response each backend would give;
each operation (login, signup, logout, the restore-on-mount effect) becomes
a pure function from the old state and the oracles to the new state, the
returned AuthResult, and the list of backends contacted, in program order.
-/

namespace Impulse

/-- Character-list test that pat occurs at the head of the second list. -/
def startsWithChars : List Char → List Char → Bool
  | [], _ => true
  | _ :: _, [] => false
  | a :: as, b :: bs => a == b && startsWithChars as bs

/-- Character-list test that pat occurs contiguously anywhere in the second
list; model of the JavaScript method String.prototype.includes used at
useAuth.tsx lines 123 and 220. -/
def containsChars (pat : List Char) : List Char → Bool
  | [] => startsWithChars pat []
  | c :: rest => startsWithChars pat (c :: rest) || containsChars pat rest

/-- Character-list test that pat is a suffix of s. -/
def endsWithChars (pat s : List Char) : Bool :=
  startsWithChars pat.reverse s.reverse

/-- Model of the JavaScript expression s.includes(pat). -/
def strIncludes (s pat : String) : Bool :=
  containsChars pat.toList s.toList

/-- Model of the JavaScript expression s.toLowerCase(), as a character list. -/
def lowerList (s : String) : List Char :=
  s.toList.map Char.toLower

/-- Domain validation from useAuth.tsx lines 11-13: the email, lowercased,
must end with the institutional suffix. -/
def isValidUTDEmail (email : String) : Bool :=
  endsWithChars (String.toList "@utdallas.edu") (lowerList email)

/-- Compile-time feature flag from useAuth.tsx line 8: skip the Flask
(primary) backend and use Supabase (secondary) directly. -/
def USE_SUPABASE_DIRECTLY : Bool := true

/-- The client-side authentication state: the six React state fields of the
hook, plus the two localStorage keys impulse_access_token (storToken) and
impulse_user_email (storEmail), each None when absent. The opaque user
object is modelled by the email recorded in it. -/
structure AuthState where
  isLoggedIn : Bool
  isEmailVerified : Bool
  verifiedEmail : String
  isLoading : Bool
  user : Option String
  accessToken : Option String
  storToken : Option String
  storEmail : Option String
  deriving DecidableEq

/-- Oracle for the Flask POST /auth/login call: either a parsed success
payload carrying access_token and email, or any thrown error (HTTP error
message, body-parse failure, or network failure) by its message. -/
inductive FlaskLogin where
  | ok (access_token : String) (email : String)
  | err (msg : String)
  deriving DecidableEq

/-- Oracle for supabase.auth.signInWithPassword: a success with data.user
(whose email field may be null) and data.session.access_token; an invalid
response in which user or session is missing; or a returned error by its
message. -/
inductive SupaLogin where
  | ok (userEmail : Option String) (access_token : String)
  | invalid
  | err (msg : String)
  deriving DecidableEq

/-- Oracle for the Flask POST /auth/register call. -/
inductive FlaskSignup where
  | ok (raw : String)
  | err (msg : String)
  deriving DecidableEq

/-- Oracle for supabase.auth.signUp. -/
inductive SupaSignup where
  | ok (raw : String)
  | err (msg : String)
  deriving DecidableEq

/-- Which backend a network request went to. -/
inductive NetCall where
  | flask
  | supa
  deriving DecidableEq

/-- Payload carried by a successful AuthResult, tagged by the path that
produced it. -/
inductive AuthData where
  | flaskLogin (access_token : String) (email : String)
  | supaLogin (userEmail : Option String) (access_token : String)
  | flaskSignup (raw : String)
  | supaSignup (raw : String)
  deriving DecidableEq

/-- The tagged outcome login and signup return to the caller; an Error
object is modelled by its message. -/
inductive AuthResult where
  | ok (data : AuthData)
  | fail (msg : String)
  deriving DecidableEq

/-- Result of one login or signup run: the state after the finally block,
the returned AuthResult, and the backends contacted in order. -/
structure OpResult where
  state : AuthState
  result : AuthResult
  calls : List NetCall
  deriving DecidableEq

/-- The validation-failure message of useAuth.tsx lines 60-63 and 184-187. -/
def domainError : String := "Only @utdallas.edu email addresses are allowed"

/-- The outer catch of login, lines 167-174: reset the four session fields
(isEmailVerified is not touched there) and remove both storage keys. -/
def clearSessionOnFailure (st : AuthState) : AuthState :=
  { st with isLoggedIn := false, verifiedEmail := "", user := none,
            accessToken := none, storToken := none, storEmail := none }

/-- Fallback trigger of lines 123 and 220: the thrown message contains one
of the three network-unreachable markers. -/
def fallbackEligible (msg : String) : Bool :=
  strIncludes msg "404" || strIncludes msg "Failed to fetch" ||
    strIncludes msg "Load failed"

/-- The Supabase section of login, lines 138-166, together with the outer
catch (lines 167-174) and the finally block (line 176) it can reach. -/
def loginSupabasePhase (st : AuthState) (supaResp : SupaLogin)
    (calls : List NetCall) : OpResult :=
  match supaResp with
  | .ok userEmail access_token =>
      let em := userEmail.getD ""
      { state := { st with isLoggedIn := true, verifiedEmail := em,
                           isEmailVerified := true, user := some em,
                           accessToken := some access_token,
                           storToken := some access_token,
                           storEmail := some em, isLoading := false },
        result := .ok (.supaLogin userEmail access_token),
        calls := calls ++ [.supa] }
  | .invalid =>
      { state := { clearSessionOnFailure st with isLoading := false },
        result := .fail "Invalid response from Supabase",
        calls := calls ++ [.supa] }
  | .err msg =>
      { state := { clearSessionOnFailure st with isLoading := false },
        result := .fail (if msg = "" then "Login failed" else msg),
        calls := calls ++ [.supa] }

/-- login from useAuth.tsx lines 56-178: domain validation, optional Flask
attempt with string-matched fallback, Supabase attempt, outer catch that
clears the session, finally block that clears isLoading. -/
def login (useSupabaseDirectly : Bool) (email password : String)
    (flaskResp : FlaskLogin) (supaResp : SupaLogin) (st : AuthState) :
    OpResult :=
  if isValidUTDEmail email then
    let stL := { st with isLoading := true }
    if useSupabaseDirectly then
      loginSupabasePhase stL supaResp []
    else
      match flaskResp with
      | .ok access_token em =>
          { state := { stL with storToken := some access_token,
                                storEmail := some em, isLoggedIn := true,
                                verifiedEmail := em, isEmailVerified := true,
                                user := some em,
                                accessToken := some access_token,
                                isLoading := false },
            result := .ok (.flaskLogin access_token em),
            calls := [.flask] }
      | .err msg =>
          if fallbackEligible msg then
            loginSupabasePhase stL supaResp [.flask]
          else
            { state := { clearSessionOnFailure stL with isLoading := false },
              result := .fail msg,
              calls := [.flask] }
  else
    { state := { st with isLoading := false },
      result := .fail domainError,
      calls := [] }

/-- The Supabase section of signup, lines 235-256, with the outer catch
(lines 257-258, which does not touch the session) and the finally block. -/
def signupSupabasePhase (st : AuthState) (supaResp : SupaSignup)
    (calls : List NetCall) : OpResult :=
  match supaResp with
  | .ok raw =>
      { state := { st with isLoading := false },
        result := .ok (.supaSignup raw),
        calls := calls ++ [.supa] }
  | .err msg =>
      { state := { st with isLoading := false },
        result := .fail (if msg = "" then "Signup failed with Supabase" else msg),
        calls := calls ++ [.supa] }

/-- signup from useAuth.tsx lines 180-262: domain validation, optional Flask
attempt with the same string-matched fallback, Supabase attempt; no failure
path mutates the session or the storage keys. -/
def signup (useSupabaseDirectly : Bool) (email password : String)
    (metadata : Option String) (flaskResp : FlaskSignup)
    (supaResp : SupaSignup) (st : AuthState) : OpResult :=
  if isValidUTDEmail email then
    let stL := { st with isLoading := true }
    if useSupabaseDirectly then
      signupSupabasePhase stL supaResp []
    else
      match flaskResp with
      | .ok raw =>
          { state := { stL with isLoading := false },
            result := .ok (.flaskSignup raw),
            calls := [.flask] }
      | .err msg =>
          if fallbackEligible msg then
            signupSupabasePhase stL supaResp [.flask]
          else
            { state := { stL with isLoading := false },
              result := .fail msg,
              calls := [.flask] }
  else
    { state := { st with isLoading := false },
      result := .fail domainError,
      calls := [] }

/-- The unconditional clearing at the head of logout, lines 265-271: all
five session fields reset and both storage keys removed. -/
def clearSession (st : AuthState) : AuthState :=
  { st with isLoggedIn := false, isEmailVerified := false, verifiedEmail := "",
            user := none, accessToken := none, storToken := none,
            storEmail := none }

/-- logout from useAuth.tsx lines 264-279. The Boolean records whether the
subsequent supabase.auth.signOut call fails; that call is requested on the
already-cleared state, its failure is caught and logged (lines 274-278), so
the returned surfaced error is None either way. -/
def logout (st : AuthState) (signOutFails : Bool) : AuthState × Option String :=
  let cleared := clearSession st
  (cleared, none)

/-- The in-memory state a freshly mounted hook starts from (lines 16-21:
logged out, loading), over whatever the two storage keys currently hold. -/
def initialInMemory (tok em : Option String) : AuthState :=
  { isLoggedIn := false, isEmailVerified := false, verifiedEmail := "",
    isLoading := true, user := none, accessToken := none,
    storToken := tok, storEmail := em }

/-- The restore-on-mount effect, lines 26-37: if both keys hold truthy
(present and nonempty) strings, repopulate the session from them; either
way isLoading ends false. -/
def restore (st : AuthState) : AuthState :=
  match st.storToken, st.storEmail with
  | some token, some email =>
      if token = "" ∨ email = "" then { st with isLoading := false }
      else
        { st with isLoggedIn := true, accessToken := some token,
                  verifiedEmail := email, user := some email,
                  isEmailVerified := true, isLoading := false }
  | _, _ => { st with isLoading := false }

/-- One completed operation of the hook as shipped (the feature flag set to
its compile-time value), or an unmount followed by a fresh mount that keeps
only the persisted storage. -/
inductive Step : AuthState → AuthState → Prop where
  | doLogin (email password : String) (fr : FlaskLogin) (sr : SupaLogin)
      {st : AuthState} :
      Step st (login USE_SUPABASE_DIRECTLY email password fr sr st).state
  | doSignup (email password : String) (metadata : Option String)
      (fr : FlaskSignup) (sr : SupaSignup) {st : AuthState} :
      Step st (signup USE_SUPABASE_DIRECTLY email password metadata fr sr st).state
  | doLogout (signOutFails : Bool) {st : AuthState} :
      Step st (logout st signOutFails).1
  | remount {st : AuthState} :
      Step st (restore (initialInMemory st.storToken st.storEmail))

/-- States the client can be in between operations, starting from a first
mount with empty storage. -/
inductive Reachable : AuthState → Prop where
  | init : Reachable (restore (initialInMemory none none))
  | step {s t : AuthState} : Reachable s → Step s t → Reachable t

/-- The in-memory session is logged in and records exactly the token and
email held by the two storage keys. -/
def loggedInAgrees (st : AuthState) : Prop :=
  st.isLoggedIn = true ∧ st.accessToken ≠ none ∧
    st.storToken = st.accessToken ∧ st.storEmail = some st.verifiedEmail

/-- Agreement as the specification states it: both sides record the same
logged-in session, or both sides are empty. -/
def agrees (st : AuthState) : Prop :=
  loggedInAgrees st ∨
    (st.isLoggedIn = false ∧ st.accessToken = none ∧ st.verifiedEmail = "" ∧
      st.user = none ∧ st.storToken = none ∧ st.storEmail = none)

/-- Agreement as the code actually maintains it: as stated, except that the
persisted keys may also survive as a pair containing an empty string, which
the restore check treats as absent, leaving the in-memory session empty. -/
def agreesAmended (st : AuthState) : Prop :=
  loggedInAgrees st ∨
    (st.isLoggedIn = false ∧ st.accessToken = none ∧ st.verifiedEmail = "" ∧
      st.user = none ∧
      ((st.storToken = none ∧ st.storEmail = none) ∨
        (st.storToken ≠ none ∧ st.storEmail ≠ none ∧
          (st.storToken = some "" ∨ st.storEmail = some ""))))

instance (st : AuthState) : Decidable (loggedInAgrees st) := by
  unfold loggedInAgrees; infer_instance

instance (st : AuthState) : Decidable (agrees st) := by
  unfold agrees; infer_instance

instance (st : AuthState) : Decidable (agreesAmended st) := by
  unfold agreesAmended; infer_instance

/-- A quiescent state with no session: what a first mount over empty
storage produces. -/
def freshState : AuthState := restore (initialInMemory none none)

/-- A quiescent logged-in state, as left by a successful login. -/
def loggedInState : AuthState :=
  { isLoggedIn := true, isEmailVerified := true,
    verifiedEmail := "u@utdallas.edu", isLoading := false,
    user := some "u@utdallas.edu", accessToken := some "tok",
    storToken := some "tok", storEmail := some "u@utdallas.edu" }

/-- First state of the C7 trace: a first mount over empty storage. -/
def c7s0 : AuthState := restore (initialInMemory none none)

/-- Second state of the C7 trace: a secondary-backend login success whose
user object carries a null email, which persists the empty string under
the email key (lines 150-151 of the source). -/
def c7s1 : AuthState :=
  (login USE_SUPABASE_DIRECTLY "a@utdallas.edu" "p" (.err "e") (.ok none "t")
    c7s0).state

/-- Third state of the C7 trace: a remount over the storage left by c7s1;
the empty stored email fails the truthiness check of line 29, so the
in-memory session stays empty while the token key remains populated. -/
def c7s2 : AuthState :=
  restore (initialInMemory c7s1.storToken c7s1.storEmail)

/-- No run of signup changes any state field other than isLoading, which
ends false: every branch of the source either returns a result without
touching the session, or rethrows into a catch that only returns. -/
theorem signup_state (flag : Bool) (email password : String)
    (metadata : Option String) (fr : FlaskSignup) (sr : SupaSignup)
    (st : AuthState) :
    (signup flag email password metadata fr sr st).state
      = { st with isLoading := false } := by
  unfold signup signupSupabasePhase
  by_cases hv : isValidUTDEmail email
  · simp only [hv, if_true]
    cases flag
    · simp only [Bool.false_eq_true, if_false]
      cases fr with
      | ok raw => rfl
      | err msg =>
          by_cases hm : fallbackEligible msg
          · simp only [hm, if_true]
            cases sr <;> rfl
          · rw [Bool.not_eq_true] at hm
            simp only [hm]
            rfl
    · cases sr <;> rfl
  · rw [Bool.not_eq_true] at hv
    simp only [hv]
    rfl

/-- Whenever the email passes validation, login contacts at least one
backend. -/
theorem login_calls_ne_nil (flag : Bool) (email password : String)
    (fl : FlaskLogin) (sl : SupaLogin) (st : AuthState)
    (hv : isValidUTDEmail email = true) :
    (login flag email password fl sl st).calls ≠ [] := by
  unfold login loginSupabasePhase
  simp only [hv, if_true]
  cases flag
  · simp only [Bool.false_eq_true, if_false]
    cases fl with
    | ok t e => simp
    | err m =>
        by_cases hm : fallbackEligible m
        · simp only [hm, if_true]
          cases sl <;> simp
        · rw [Bool.not_eq_true] at hm
          simp only [hm]
          simp
  · cases sl <;> simp

/-- Whenever the email passes validation, signup contacts at least one
backend. -/
theorem signup_calls_ne_nil (flag : Bool) (email password : String)
    (metadata : Option String) (fr : FlaskSignup) (sr : SupaSignup)
    (st : AuthState) (hv : isValidUTDEmail email = true) :
    (signup flag email password metadata fr sr st).calls ≠ [] := by
  unfold signup signupSupabasePhase
  simp only [hv, if_true]
  cases flag
  · simp only [Bool.false_eq_true, if_false]
    cases fr with
    | ok raw => simp
    | err m =>
        by_cases hm : fallbackEligible m
        · simp only [hm, if_true]
          cases sr <;> simp
        · rw [Bool.not_eq_true] at hm
          simp only [hm]
          simp
  · cases sr <;> simp

/-- C6: after logout both persisted storage keys are absent and the
in-memory session is the empty state, for every starting state and whether
or not the secondary sign-out fails; the final state equals the cleared
state on which the secondary sign-out was requested, and no error is
surfaced to the caller. -/
theorem C6_logout_clears (st : AuthState) (signOutFails : Bool) :
    (logout st signOutFails).1 = clearSession st ∧
    (logout st signOutFails).1.storToken = none ∧
    (logout st signOutFails).1.storEmail = none ∧
    (logout st signOutFails).1.isLoggedIn = false ∧
    (logout st signOutFails).1.isEmailVerified = false ∧
    (logout st signOutFails).1.verifiedEmail = "" ∧
    (logout st signOutFails).1.user = none ∧
    (logout st signOutFails).1.accessToken = none ∧
    (logout st signOutFails).2 = none :=
  ⟨rfl, rfl, rfl, rfl, rfl, rfl, rfl, rfl, rfl⟩

/-- C9: logout is idempotent: running it twice from any starting state,
with either sign-out outcome each time, ends in the same state (and
returns the same value) as running it once. -/
theorem C9_logout_idempotent (st : AuthState) (f g : Bool) :
    logout (logout st f).1 g = logout st f := rfl

/-- C8: signup never persists a session: for every input the state after
signup equals the state before with only isLoading set to false (so all
session fields and both storage keys are unchanged), and on backend
success the raw backend payload is returned to the caller. -/
theorem C8_signup_frame (flag : Bool) (email password : String)
    (metadata : Option String) (fr : FlaskSignup) (sr : SupaSignup)
    (st : AuthState) :
    (signup flag email password metadata fr sr st).state
      = { st with isLoading := false } ∧
    (∀ raw, flag = false → isValidUTDEmail email = true → fr = .ok raw →
      (signup flag email password metadata fr sr st).result
        = .ok (.flaskSignup raw)) ∧
    (∀ raw, flag = true → isValidUTDEmail email = true → sr = .ok raw →
      (signup flag email password metadata fr sr st).result
        = .ok (.supaSignup raw)) := by
  refine ⟨signup_state flag email password metadata fr sr st, ?_, ?_⟩
  · intro raw hflag hv hfr
    subst hflag
    subst hfr
    simp [signup, hv]
  · intro raw hflag hv hsr
    subst hflag
    subst hsr
    simp [signup, signupSupabasePhase, hv]

/-- C8 witness: a concrete signup run from a logged-in state with a
successful secondary backend leaves the session and storage untouched and
returns the raw payload. -/
theorem C8_signup_frame_witness :
    (signup true "a@utdallas.edu" "p" none (.err "e") (.ok "r") loggedInState).state
      = { loggedInState with isLoading := false } ∧
    (signup true "a@utdallas.edu" "p" none (.err "e") (.ok "r") loggedInState).result
      = .ok (.supaSignup "r") :=
  ⟨(C8_signup_frame true "a@utdallas.edu" "p" none (.err "e") (.ok "r")
      loggedInState).1,
   (C8_signup_frame true "a@utdallas.edu" "p" none (.err "e") (.ok "r")
      loggedInState).2.2 "r" rfl (by decide) rfl⟩

/-- C2 counterexample: the email "A@UTDALLAS.EDU" does not end in the
institutional suffix "@utdallas.edu" as written, yet login issues a
network call and succeeds against the secondary backend, so the claim as
stated fails. -/
theorem C2_counterexample :
    endsWithChars (String.toList "@utdallas.edu")
        (String.toList "A@UTDALLAS.EDU") = false ∧
    (login USE_SUPABASE_DIRECTLY "A@UTDALLAS.EDU" "p" (.err "e")
        (.ok (some "A@UTDALLAS.EDU") "t") freshState).calls ≠ [] ∧
    (login USE_SUPABASE_DIRECTLY "A@UTDALLAS.EDU" "p" (.err "e")
        (.ok (some "A@UTDALLAS.EDU") "t") freshState).result
      = .ok (.supaLogin (some "A@UTDALLAS.EDU") "t") := by
  decide

/-- C2 (amended): for every email whose lowercased form does not end in
"@utdallas.edu", login and signup both return the validation Failure
immediately, with no network call to either backend and no state change
besides isLoading ending false. -/
theorem C2_amended_validation (flag : Bool) (email password : String)
    (metadata : Option String) (fl : FlaskLogin) (sl : SupaLogin)
    (fs : FlaskSignup) (ss : SupaSignup) (st : AuthState)
    (hv : isValidUTDEmail email = false) :
    login flag email password fl sl st
      = ⟨{ st with isLoading := false }, .fail domainError, []⟩ ∧
    signup flag email password metadata fs ss st
      = ⟨{ st with isLoading := false }, .fail domainError, []⟩ := by
  refine ⟨?_, ?_⟩
  · unfold login
    simp only [hv]
    rfl
  · unfold signup
    simp only [hv]
    rfl

/-- C2 witness: a non-institutional email is rejected by both operations
without any network call. -/
theorem C2_amended_validation_witness :
    login USE_SUPABASE_DIRECTLY "a@gmail.com" "p" (.err "e")
        (.ok (some "a") "t") freshState
      = ⟨{ freshState with isLoading := false }, .fail domainError, []⟩ :=
  (C2_amended_validation USE_SUPABASE_DIRECTLY "a@gmail.com" "p" none
    (.err "e") (.ok (some "a") "t") (.err "e") (.err "e") freshState
    (by decide)).1

/-- C10: the institutional domain check is case-insensitive: every email
whose lowercase form ends in "@utdallas.edu" passes validation, and both
login and signup then proceed past validation to contact a backend. -/
theorem C10_case_insensitive (flag : Bool) (email password : String)
    (metadata : Option String) (fl : FlaskLogin) (sl : SupaLogin)
    (fs : FlaskSignup) (ss : SupaSignup) (st : AuthState)
    (h : endsWithChars (String.toList "@utdallas.edu") (lowerList email)
          = true) :
    isValidUTDEmail email = true ∧
    (login flag email password fl sl st).calls ≠ [] ∧
    (signup flag email password metadata fs ss st).calls ≠ [] := by
  have hv : isValidUTDEmail email = true := h
  exact ⟨hv, login_calls_ne_nil flag email password fl sl st hv,
    signup_calls_ne_nil flag email password metadata fs ss st hv⟩

/-- When the Flask attempt throws, the set of backends login contacts is
determined by the fallback markers in the thrown message. -/
theorem login_calls_err (email password msg : String) (sl : SupaLogin)
    (st : AuthState) (hv : isValidUTDEmail email = true) :
    (login false email password (.err msg) sl st).calls
      = if fallbackEligible msg then [NetCall.flask, NetCall.supa]
        else [NetCall.flask] := by
  unfold login loginSupabasePhase
  simp only [hv, if_true, Bool.false_eq_true, if_false]
  by_cases hm : fallbackEligible msg
  · simp only [hm, if_true]
    cases sl <;> rfl
  · rw [Bool.not_eq_true] at hm
    simp only [hm]
    rfl

/-- When the Flask attempt throws, the set of backends signup contacts is
determined by the fallback markers in the thrown message. -/
theorem signup_calls_err (email password msg : String)
    (metadata : Option String) (ss : SupaSignup) (st : AuthState)
    (hv : isValidUTDEmail email = true) :
    (signup false email password metadata (.err msg) ss st).calls
      = if fallbackEligible msg then [NetCall.flask, NetCall.supa]
        else [NetCall.flask] := by
  unfold signup signupSupabasePhase
  simp only [hv, if_true, Bool.false_eq_true, if_false]
  by_cases hm : fallbackEligible msg
  · simp only [hm, if_true]
    cases ss <;> rfl
  · rw [Bool.not_eq_true] at hm
    simp only [hm]
    rfl

/-- A failing login run that got past validation always ends in the
cleared session state of the outer catch. -/
theorem login_fail_state (flag : Bool) (email password msg : String)
    (fl : FlaskLogin) (sl : SupaLogin) (st : AuthState)
    (hv : isValidUTDEmail email = true)
    (hf : (login flag email password fl sl st).result = .fail msg) :
    (login flag email password fl sl st).state
      = { clearSessionOnFailure st with isLoading := false } := by
  revert hf
  unfold login loginSupabasePhase
  simp only [hv, if_true]
  cases flag
  · simp only [Bool.false_eq_true, if_false]
    cases fl with
    | ok t e => intro hf; exact AuthResult.noConfusion hf
    | err m =>
        by_cases hm : fallbackEligible m
        · simp only [hm, if_true]
          cases sl with
          | ok u t => intro hf; exact AuthResult.noConfusion hf
          | invalid => intro _; rfl
          | err m2 => intro _; rfl
        · rw [Bool.not_eq_true] at hm
          simp only [hm]
          intro _
          rfl
  · cases sl with
    | ok u t => intro hf; exact AuthResult.noConfusion hf
    | invalid => intro _; rfl
    | err m2 => intro _; rfl

/-- C4: when the feature flag selects skip-primary, login and signup
contact only the secondary backend and never the primary; when it does
not, the primary backend is contacted first. -/
theorem C4_flag_routing (email password : String) (metadata : Option String)
    (fl : FlaskLogin) (sl : SupaLogin) (fs : FlaskSignup) (ss : SupaSignup)
    (st : AuthState) (hv : isValidUTDEmail email = true) :
    (login true email password fl sl st).calls = [NetCall.supa] ∧
    (signup true email password metadata fs ss st).calls = [NetCall.supa] ∧
    (login false email password fl sl st).calls.head?
      = some NetCall.flask ∧
    (signup false email password metadata fs ss st).calls.head?
      = some NetCall.flask := by
  refine ⟨?_, ?_, ?_, ?_⟩
  · unfold login loginSupabasePhase
    simp only [hv, if_true]
    cases sl <;> rfl
  · unfold signup signupSupabasePhase
    simp only [hv, if_true]
    cases ss <;> rfl
  · cases fl with
    | ok t e =>
        unfold login
        simp only [hv, if_true, Bool.false_eq_true, if_false]
        rfl
    | err m =>
        rw [login_calls_err email password m sl st hv]
        by_cases hm : fallbackEligible m
        · simp only [hm, if_true]
          rfl
        · rw [Bool.not_eq_true] at hm
          simp only [hm]
          rfl
  · cases fs with
    | ok raw =>
        unfold signup
        simp only [hv, if_true, Bool.false_eq_true, if_false]
        rfl
    | err m =>
        rw [signup_calls_err email password m metadata ss st hv]
        by_cases hm : fallbackEligible m
        · simp only [hm, if_true]
          rfl
        · rw [Bool.not_eq_true] at hm
          simp only [hm]
          rfl

/-- C4 witness: with the shipped flag value the secondary backend alone is
contacted; with the flag off the primary is contacted first. -/
theorem C4_flag_routing_witness :
    (login true "a@utdallas.edu" "p" (.err "e") (.ok (some "a") "t")
        freshState).calls = [NetCall.supa] ∧
    (login false "a@utdallas.edu" "p" (.err "e") (.ok (some "a") "t")
        freshState).calls.head? = some NetCall.flask :=
  ⟨(C4_flag_routing "a@utdallas.edu" "p" none (.err "e") (.ok (some "a") "t")
      (.err "e") (.err "e") freshState (by decide)).1,
   (C4_flag_routing "a@utdallas.edu" "p" none (.err "e") (.ok (some "a") "t")
      (.err "e") (.err "e") freshState (by decide)).2.2.1⟩

/-- C1: when the primary backend is attempted and throws, both login and
signup attempt the secondary backend exactly when the thrown message
contains one of the markers "404", "Failed to fetch", "Load failed"; when
it contains none of them the secondary backend is not contacted and the
very failure message is returned to the caller. -/
theorem C1_fallback_trigger (email password msg : String)
    (metadata : Option String) (sl : SupaLogin) (ss : SupaSignup)
    (st : AuthState) (hv : isValidUTDEmail email = true) :
    (NetCall.supa ∈ (login false email password (.err msg) sl st).calls
      ↔ fallbackEligible msg = true) ∧
    (NetCall.supa ∈ (signup false email password metadata (.err msg) ss st).calls
      ↔ fallbackEligible msg = true) ∧
    (fallbackEligible msg = false →
      (login false email password (.err msg) sl st).result = .fail msg ∧
      (login false email password (.err msg) sl st).calls = [NetCall.flask] ∧
      (signup false email password metadata (.err msg) ss st).result
        = .fail msg ∧
      (signup false email password metadata (.err msg) ss st).calls
        = [NetCall.flask]) := by
  refine ⟨?_, ?_, ?_⟩
  · rw [login_calls_err email password msg sl st hv]
    by_cases hm : fallbackEligible msg
    · simp [hm]
    · rw [Bool.not_eq_true] at hm
      simp [hm]
  · rw [signup_calls_err email password msg metadata ss st hv]
    by_cases hm : fallbackEligible msg
    · simp [hm]
    · rw [Bool.not_eq_true] at hm
      simp [hm]
  · intro hm
    refine ⟨?_, ?_, ?_, ?_⟩
    · unfold login
      simp only [hv, if_true, Bool.false_eq_true, if_false, hm]
    · rw [login_calls_err email password msg sl st hv, hm]
      rfl
    · unfold signup
      simp only [hv, if_true, Bool.false_eq_true, if_false, hm]
    · rw [signup_calls_err email password msg metadata ss st hv, hm]
      rfl

/-- C1 witness: a network-style failure message triggers the fallback and
a plain rejection message does not, with the rejection returned as-is. -/
theorem C1_fallback_trigger_witness :
    (NetCall.supa ∈ (login false "a@utdallas.edu" "p"
        (.err "Failed to fetch") (.ok (some "a") "t") freshState).calls
      ↔ fallbackEligible "Failed to fetch" = true) ∧
    ((login false "a@utdallas.edu" "p" (.err "Invalid credentials")
        (.ok (some "a") "t") freshState).result
      = .fail "Invalid credentials") :=
  ⟨(C1_fallback_trigger "a@utdallas.edu" "p" "Failed to fetch" none
      (.ok (some "a") "t") (.err "e") freshState (by decide)).1,
   ((C1_fallback_trigger "a@utdallas.edu" "p" "Invalid credentials" none
      (.ok (some "a") "t") (.err "e") freshState (by decide)).2.2
      (by decide)).1⟩

/-- C5 counterexample: a primary-backend login success whose response body
carries an email different from the input email yields a session and
persisted storage holding the backend email, not the input email, so the
claim as stated fails. -/
theorem C5_counterexample :
    (login false "a@utdallas.edu" "p" (.ok "tok" "b@utdallas.edu")
        (.err "x") freshState).result
      = .ok (.flaskLogin "tok" "b@utdallas.edu") ∧
    (login false "a@utdallas.edu" "p" (.ok "tok" "b@utdallas.edu")
        (.err "x") freshState).state.verifiedEmail ≠ "a@utdallas.edu" ∧
    (login false "a@utdallas.edu" "p" (.ok "tok" "b@utdallas.edu")
        (.err "x") freshState).state.storEmail ≠ some "a@utdallas.edu" := by
  decide

/-- C5 (amended): when login succeeds against the primary backend, the
session email and token are exactly the email and access token carried by
the backend response (equal to the input email whenever the backend echoes
it), and the two storage keys hold those same values. -/
theorem C5_amended_primary_success (email password tok em : String)
    (sl : SupaLogin) (st : AuthState) (hv : isValidUTDEmail email = true) :
    (login false email password (.ok tok em) sl st).result
      = .ok (.flaskLogin tok em) ∧
    (login false email password (.ok tok em) sl st).state.isLoggedIn
      = true ∧
    (login false email password (.ok tok em) sl st).state.verifiedEmail
      = em ∧
    (login false email password (.ok tok em) sl st).state.accessToken
      = some tok ∧
    (login false email password (.ok tok em) sl st).state.storToken
      = some tok ∧
    (login false email password (.ok tok em) sl st).state.storEmail
      = some em := by
  unfold login
  simp [hv]

/-- C5 witness: when the primary backend echoes the input email the
original wording also holds: session and storage record the input email
and the backend token. -/
theorem C5_amended_primary_success_witness :
    (login false "a@utdallas.edu" "p" (.ok "t" "a@utdallas.edu")
        (.err "x") freshState).state.verifiedEmail = "a@utdallas.edu" ∧
    (login false "a@utdallas.edu" "p" (.ok "t" "a@utdallas.edu")
        (.err "x") freshState).state.storToken = some "t" :=
  ⟨(C5_amended_primary_success "a@utdallas.edu" "p" "t" "a@utdallas.edu"
      (.err "x") freshState (by decide)).2.2.1,
   (C5_amended_primary_success "a@utdallas.edu" "p" "t" "a@utdallas.edu"
      (.err "x") freshState (by decide)).2.2.2.2.1⟩

/-- C3 counterexample: a signup run from a logged-in state whose secondary
backend rejects returns Failure while both the session and the persisted
token key are left intact, so the claim that every failure path resets the
session and removes both keys fails. -/
theorem C3_counterexample :
    (signup USE_SUPABASE_DIRECTLY "a@utdallas.edu" "p" none (.err "e")
        (.err "boom") loggedInState).result = .fail "boom" ∧
    (signup USE_SUPABASE_DIRECTLY "a@utdallas.edu" "p" none (.err "e")
        (.err "boom") loggedInState).state.storToken = some "tok" ∧
    (signup USE_SUPABASE_DIRECTLY "a@utdallas.edu" "p" none (.err "e")
        (.err "boom") loggedInState).state.isLoggedIn = true := by
  decide

/-- C3 (amended): every failure of login that occurs after domain
validation resets the session to the logged-out empty state and removes
both storage keys before Failure is returned; the domain-validation
failure of login, and every run of signup, instead leave the session and
both keys unchanged, only isLoading ending false. -/
theorem C3_amended_failure_reset (flag : Bool) (email password msg : String)
    (metadata : Option String) (fl : FlaskLogin) (sl : SupaLogin)
    (fs : FlaskSignup) (ss : SupaSignup) (st : AuthState) :
    (isValidUTDEmail email = true →
      (login flag email password fl sl st).result = .fail msg →
      (login flag email password fl sl st).state
        = { clearSessionOnFailure st with isLoading := false }) ∧
    (isValidUTDEmail email = false →
      (login flag email password fl sl st).state
        = { st with isLoading := false }) ∧
    (signup flag email password metadata fs ss st).state
      = { st with isLoading := false } := by
  refine ⟨fun hv hf => login_fail_state flag email password msg fl sl st hv hf,
    fun hv => ?_, signup_state flag email password metadata fs ss st⟩
  unfold login
  simp only [hv]
  rfl

/-- C3 witness: a concrete failing login from a logged-in state ends in
the cleared state with both keys removed. -/
theorem C3_amended_failure_reset_witness :
    (login USE_SUPABASE_DIRECTLY "a@utdallas.edu" "p" (.err "e")
        (.err "bad") loggedInState).state
      = { clearSessionOnFailure loggedInState with isLoading := false } :=
  (C3_amended_failure_reset USE_SUPABASE_DIRECTLY "a@utdallas.edu" "p" "bad"
    none (.err "e") (.err "bad") (.err "e") (.err "e")
    loggedInState).1 (by decide) (by decide)

/-- C10 witness: the all-uppercase email "STUDENT@UTDALLAS.EDU" is
accepted and login proceeds to a backend. -/
theorem C10_case_insensitive_witness :
    isValidUTDEmail "STUDENT@UTDALLAS.EDU" = true ∧
    (login USE_SUPABASE_DIRECTLY "STUDENT@UTDALLAS.EDU" "p" (.err "e")
        (.ok (some "s") "t") freshState).calls ≠ [] :=
  ⟨(C10_case_insensitive USE_SUPABASE_DIRECTLY "STUDENT@UTDALLAS.EDU" "p"
      none (.err "e") (.ok (some "s") "t") (.err "e") (.err "e") freshState
      (by decide)).1,
   (C10_case_insensitive USE_SUPABASE_DIRECTLY "STUDENT@UTDALLAS.EDU" "p"
      none (.err "e") (.ok (some "s") "t") (.err "e") (.err "e") freshState
      (by decide)).2.1⟩

/-- The amended agreement holds at the initial mounted state. -/
theorem agreesAmended_init :
    agreesAmended (restore (initialInMemory none none)) := by
  decide

/-- The amended agreement is preserved by every operation of the hook. -/
theorem agreesAmended_step {s t : AuthState} (hs : agreesAmended s)
    (hstep : Step s t) : agreesAmended t := by
  cases hstep with
  | doLogin email password fr sr =>
      by_cases hv : isValidUTDEmail email
      · unfold login loginSupabasePhase USE_SUPABASE_DIRECTLY
        simp only [hv, if_true]
        cases sr with
        | ok u tok => exact Or.inl ⟨rfl, by simp, rfl, rfl⟩
        | invalid => exact Or.inr ⟨rfl, rfl, rfl, rfl, Or.inl ⟨rfl, rfl⟩⟩
        | err m => exact Or.inr ⟨rfl, rfl, rfl, rfl, Or.inl ⟨rfl, rfl⟩⟩
      · rw [Bool.not_eq_true] at hv
        unfold login
        simp only [hv]
        exact hs
  | doSignup email password metadata fr sr =>
      rw [signup_state USE_SUPABASE_DIRECTLY email password metadata fr sr s]
      exact hs
  | doLogout f =>
      exact Or.inr ⟨rfl, rfl, rfl, rfl, Or.inl ⟨rfl, rfl⟩⟩
  | remount =>
      rcases hs with ⟨hlog, hat, hst, hse⟩ | ⟨hlog, hat, hve, hu, hstor⟩
      · cases hacc : s.accessToken with
        | none => exact absurd hacc hat
        | some tok =>
            rw [hacc] at hst
            unfold restore initialInMemory
            simp only [hst, hse]
            by_cases he : tok = "" ∨ s.verifiedEmail = ""
            · rw [if_pos he]
              refine Or.inr ⟨rfl, rfl, rfl, rfl, Or.inr ⟨by simp, by simp, ?_⟩⟩
              rcases he with he | he
              · exact Or.inl (by rw [he])
              · exact Or.inr (by rw [he])
            · rw [if_neg he]
              exact Or.inl ⟨rfl, by simp, rfl, rfl⟩
      · rcases hstor with ⟨ht, he⟩ | ⟨ht, he, hempty⟩
        · unfold restore initialInMemory
          simp only [ht, he]
          exact Or.inr ⟨rfl, rfl, rfl, rfl, Or.inl ⟨rfl, rfl⟩⟩
        · cases hta : s.storToken with
          | none => exact absurd hta ht
          | some a =>
              cases hea : s.storEmail with
              | none => exact absurd hea he
              | some b =>
                  unfold restore initialInMemory
                  simp only [hta, hea]
                  have hcond : a = "" ∨ b = "" := by
                    rcases hempty with hx | hx
                    · rw [hta] at hx
                      exact Or.inl (Option.some.inj hx)
                    · rw [hea] at hx
                      exact Or.inr (Option.some.inj hx)
                  rw [if_pos hcond]
                  refine Or.inr ⟨rfl, rfl, rfl, rfl,
                    Or.inr ⟨by simp, by simp, ?_⟩⟩
                  rcases hcond with hx | hx
                  · exact Or.inl (by rw [hx])
                  · exact Or.inr (by rw [hx])

/-- C7 counterexample: a reachable quiescent state in which the persisted
token key is populated while the in-memory session is empty: log in
against the secondary backend when the returned user object has a null
email (the empty string is persisted under the email key), then remount;
the restore check treats the empty stored email as absent, so the claimed
agreement between persisted and in-memory session fails. -/
theorem C7_counterexample :
    Reachable c7s2 ∧ c7s2.isLoading = false ∧ ¬ agrees c7s2 := by
  refine ⟨?_, by decide, by decide⟩
  exact Reachable.step
    (Reachable.step Reachable.init
      (Step.doLogin "a@utdallas.edu" "p" (.err "e") (.ok none "t")))
    Step.remount

/-- C7 (amended): in every reachable quiescent state with isLoading false,
either the in-memory session is logged in and records exactly the token
and email held by the two persisted keys, or the in-memory session is
empty and the persisted keys are either both absent or both present with
the token or the email equal to the empty string (the latter arising only
from persisting a backend response with an empty token or email and
remounting). Persisted state changes only through the login, signup,
logout and restore transitions of the Step relation, never elsewhere. -/
theorem C7_amended_agreement (st : AuthState) (h : Reachable st)
    (hl : st.isLoading = false) : agreesAmended st := by
  clear hl
  induction h with
  | init => exact agreesAmended_init
  | step hs hstep ih => exact agreesAmended_step ih hstep

/-- C7 witness: the invariant holds at the freshly mounted state. -/
theorem C7_amended_agreement_witness :
    agreesAmended (restore (initialInMemory none none)) :=
  C7_amended_agreement (restore (initialInMemory none none))
    Reachable.init (by decide)

end Impulse
